import Mathlib

/-!
# StudyBuddy — verification of the scoring engine and record lifecycle

Shallow embedding of the decision logic of `studybuddy_streamlit.py` and
`studybuddy_nicegui.py`: the pre-interview scoring function, the score
classifier, the Gemini suggestion wrappers with their fallback texts, the
intake submission handler, the admin assignment update, and the chat
transcript operations.  Numeric text fields are modelled over `ℚ` with an
exact decimal parse standing in for Python's `float()` (finite decimal
literals with optional sign, fraction and exponent; the exotic forms
`inf`/`nan`, digit-group underscores and non-ASCII digits are treated as
unparsable).  External effects (the Gemini API call, SQLite, the session
store) are made explicit: the API outcome is a parameter, the students
table is a list of rows, and handlers return the new table together with
the observable effects they perform.
-/

set_option maxRecDepth 20000

namespace StudyBuddy

/-! ## Python numeric parsing model -/

/-- Characters of a string with surrounding whitespace removed; models
Python's `str.strip()`. -/
def pyStripChars (l : List Char) : List Char :=
  ((l.dropWhile Char.isWhitespace).reverse.dropWhile Char.isWhitespace).reverse

/-- Python's `s.strip()` on a string. -/
def pyStrip (s : String) : String := String.mk (pyStripChars s.data)

/-- Numeric value of a list of ASCII digits, most significant first. -/
def digitsVal (l : List Char) : ℕ :=
  l.foldl (fun a c => 10 * a + (c.toNat - 48)) 0

/-- Consume an optional leading sign; `true` means negative. -/
def takeSign : List Char → Bool × List Char
  | '-' :: rest => (true, rest)
  | '+' :: rest => (false, rest)
  | l => (false, l)

/-- Consume an optional exponent part `e`/`E` sign digits; `none` when an
exponent marker is present but malformed (Python raises `ValueError`). -/
def takeExp : List Char → Option (ℤ × List Char)
  | [] => some (0, [])
  | c :: rest =>
    if c = 'e' || c = 'E' then
      match takeSign rest with
      | (eneg, r) =>
        let ed := r.takeWhile Char.isDigit
        let r2 := r.dropWhile Char.isDigit
        if ed.isEmpty then none
        else some (if eneg then -(digitsVal ed : ℤ) else (digitsVal ed : ℤ), r2)
    else some (0, c :: rest)

/-- Model of Python's `float(s)` on a string: surrounding whitespace is
stripped, then an optionally signed decimal literal with optional fraction
and exponent is parsed exactly into `ℚ`; every other string yields `none`
(Python raises `ValueError` there). -/
def pyFloat (s : String) : Option ℚ :=
  let l := pyStripChars s.data
  let sg := takeSign l
  let ip := sg.2.takeWhile Char.isDigit
  let l2 := sg.2.dropWhile Char.isDigit
  let fr : List Char × List Char :=
    match l2 with
    | '.' :: r => (r.takeWhile Char.isDigit, r.dropWhile Char.isDigit)
    | _ => ([], l2)
  if ip.isEmpty && fr.1.isEmpty then none
  else
    match takeExp fr.2 with
    | none => none
    | some (e, rest) =>
      if rest.isEmpty then
        let num : ℤ := if sg.1 then -(digitsVal (ip ++ fr.1) : ℤ) else (digitsVal (ip ++ fr.1) : ℤ)
        let e2 : ℤ := e - (fr.1.length : ℤ)
        some (if 0 ≤ e2 then mkRat (num * ((10 ^ e2.toNat : ℕ) : ℤ)) 1
              else mkRat num (10 ^ (-e2).toNat))
      else none

/-! ## Pre-interview answers and the scoring engine -/

/-- The four keys the scoring code reads from the `pre_answers` dict via
`answers.get(k)`; `none` models an absent key. -/
structure Answers where
  motivation : Option String
  ielts_score : Option String
  work_experience_years : Option String
  budget_estimate : Option String
deriving DecidableEq

/-- Models `float(answers.get(k) or 0)` under `try/except`: an absent key
gives `None or 0 = 0`, the empty string is falsy and also gives `0`, and a
`ValueError` from `float` is caught and replaced by `0`. -/
def numField (v : Option String) : ℚ :=
  match v with
  | none => 0
  | some s => if s = "" then 0 else (pyFloat s).getD 0

/-- IELTS block of `calculate_pre_interview_score`:
`if ielts >= 7.0: +30 elif ielts >= 6.0: +20 elif ielts > 0: +10`. -/
def ielts_points (v : ℚ) : ℤ :=
  if 7 ≤ v then 30 else if 6 ≤ v then 20 else if 0 < v then 10 else 0

/-- Work-experience block:
`if work_years >= 3: +25 elif work_years >= 1: +15`. -/
def work_points (w : ℚ) : ℤ :=
  if 3 ≤ w then 25 else if 1 ≤ w then 15 else 0

/-- Motivation block: `motivation = (answers.get("motivation") or "").strip()`
then `if len > 400: +25 elif len > 200: +15 elif len > 50: +5`.
Python's `str.strip` is modelled by `pyStripChars`. -/
def motivation_points (m : String) : ℤ :=
  if 400 < (pyStripChars m.data).length then 25
  else if 200 < (pyStripChars m.data).length then 15
  else if 50 < (pyStripChars m.data).length then 5
  else 0

/-- Budget block: `if budget >= 20000: +10`. -/
def budget_points (b : ℚ) : ℤ :=
  if 20000 ≤ b then 10 else 0

/-- The accumulated `score` just before the final `return min(score, 100)`. -/
def pre_interview_raw (a : Answers) : ℤ :=
  ielts_points (numField a.ielts_score) + work_points (numField a.work_experience_years) +
    motivation_points (a.motivation.getD "") + budget_points (numField a.budget_estimate)

/-- `calculate_pre_interview_score(answers)` (identical in both app
variants): the four additive blocks followed by `return min(score, 100)`. -/
def calculate_pre_interview_score (a : Answers) : ℤ :=
  min (pre_interview_raw a) 100

/-- `classify_score(score)` (identical in both app variants). -/
def classify_score (score : ℤ) : String :=
  if score ≥ 75 then "High" else if score ≥ 50 then "Medium" else "Low"

/-! ## Spec-side band functions (for the refinement claim C1)

Modelled from the spec: four independent band contributions with two-sided
ranges, summed and capped by `min(·, 100)`. -/

/-- Modelled from the spec: IELTS band `v≥7.0 → +30; 6.0≤v<7.0 → +20;
0<v<6.0 → +10; else +0`. -/
def ielts_band_spec (v : ℚ) : ℤ :=
  if 7 ≤ v then 30 else if 6 ≤ v ∧ v < 7 then 20 else if 0 < v ∧ v < 6 then 10 else 0

/-- Modelled from the spec: work band `w≥3 → +25; 1≤w<3 → +15; else +0`. -/
def work_band_spec (w : ℚ) : ℤ :=
  if 3 ≤ w then 25 else if 1 ≤ w ∧ w < 3 then 15 else 0

/-- Modelled from the spec: motivation band on the trimmed length `L`:
`L>400 → +25; 200<L≤400 → +15; 50<L≤200 → +5; else +0`. -/
def motivation_band_spec (L : ℕ) : ℤ :=
  if 400 < L then 25 else if 200 < L ∧ L ≤ 400 then 15 else if 50 < L ∧ L ≤ 200 then 5 else 0

/-- Modelled from the spec: budget band `b≥20000 → +10; else +0`. -/
def budget_band_spec (b : ℚ) : ℤ :=
  if 20000 ≤ b then 10 else 0

/-- Modelled from the spec: score as the sum of the four independent band
contributions, capped as `min(sum, 100)`. -/
def score_spec (a : Answers) : ℤ :=
  min (ielts_band_spec (numField a.ielts_score) + work_band_spec (numField a.work_experience_years) +
       motivation_band_spec (pyStripChars (a.motivation.getD "").data).length +
       budget_band_spec (numField a.budget_estimate)) 100

/-! ## Band lemmas -/

theorem ielts_points_eq_spec (v : ℚ) : ielts_points v = ielts_band_spec v := by
  unfold ielts_points ielts_band_spec
  rcases le_or_lt 7 v with h7 | h7
  · simp [h7]
  · rcases le_or_lt 6 v with h6 | h6
    · simp [not_le.mpr h7, h6, h7]
    · rcases lt_or_le 0 v with h0 | h0
      · simp [not_le.mpr h7, not_le.mpr h6, h0, h6]
      · simp [not_le.mpr h7, not_le.mpr h6, not_lt.mpr h0]

theorem work_points_eq_spec (w : ℚ) : work_points w = work_band_spec w := by
  unfold work_points work_band_spec
  rcases le_or_lt 3 w with h3 | h3
  · simp [h3]
  · rcases le_or_lt 1 w with h1 | h1
    · simp [not_le.mpr h3, h1, h3]
    · simp [not_le.mpr h3, not_le.mpr h1]

theorem motivation_points_eq_spec (m : String) :
    motivation_points m = motivation_band_spec (pyStripChars m.data).length := by
  unfold motivation_points motivation_band_spec
  rcases lt_or_le 400 (pyStripChars m.data).length with h4 | h4
  · simp [h4]
  · rcases lt_or_le 200 (pyStripChars m.data).length with h2 | h2
    · simp [not_lt.mpr h4, h2, h4]
    · rcases lt_or_le 50 (pyStripChars m.data).length with h5 | h5
      · simp [not_lt.mpr h4, not_lt.mpr h2, h5, h2]
      · simp [not_lt.mpr h4, not_lt.mpr h2, not_lt.mpr h5]

theorem budget_points_eq_spec (b : ℚ) : budget_points b = budget_band_spec b := rfl

theorem ielts_points_nonneg (v : ℚ) : 0 ≤ ielts_points v := by
  unfold ielts_points; split_ifs <;> norm_num

theorem ielts_points_le (v : ℚ) : ielts_points v ≤ 30 := by
  unfold ielts_points; split_ifs <;> norm_num

theorem work_points_nonneg (w : ℚ) : 0 ≤ work_points w := by
  unfold work_points; split_ifs <;> norm_num

theorem work_points_le (w : ℚ) : work_points w ≤ 25 := by
  unfold work_points; split_ifs <;> norm_num

theorem motivation_points_nonneg (m : String) : 0 ≤ motivation_points m := by
  unfold motivation_points; split_ifs <;> norm_num

theorem motivation_points_le (m : String) : motivation_points m ≤ 25 := by
  unfold motivation_points; split_ifs <;> norm_num

theorem budget_points_nonneg (b : ℚ) : 0 ≤ budget_points b := by
  unfold budget_points; split_ifs <;> norm_num

theorem budget_points_le (b : ℚ) : budget_points b ≤ 10 := by
  unfold budget_points; split_ifs <;> norm_num

theorem raw_nonneg (a : Answers) : 0 ≤ pre_interview_raw a := by
  unfold pre_interview_raw
  have h1 := ielts_points_nonneg (numField a.ielts_score)
  have h2 := work_points_nonneg (numField a.work_experience_years)
  have h3 := motivation_points_nonneg (a.motivation.getD "")
  have h4 := budget_points_nonneg (numField a.budget_estimate)
  linarith

theorem raw_le_ninety (a : Answers) : pre_interview_raw a ≤ 90 := by
  unfold pre_interview_raw
  have h1 := ielts_points_le (numField a.ielts_score)
  have h2 := work_points_le (numField a.work_experience_years)
  have h3 := motivation_points_le (a.motivation.getD "")
  have h4 := budget_points_le (numField a.budget_estimate)
  linarith

/-! ## Suggestion gateway -/

/-- Outcome of the external `model.generate_content` call: either a reply
text, or any raised exception (network error, malformed response, or — in
the NiceGUI variant, where the key is never checked up front — a missing
credential). -/
inductive GeminiOutcome
  | ok (text : String)
  | error
deriving DecidableEq

/-- Applicant profile fields collected by the intake form (the `payload`
dict); `consent` is stored as `int(consent)` in SQLite but carried here as
the `Bool` it is in the handlers. -/
structure Profile where
  full_name : String
  email : String
  phone : String
  country_of_origin : String
  preferred_cities : String
  program_interest : String
  current_qualification : String
  target_intake : String
  budget_estimate : String
  preferred_contact_method : String
  consent : Bool
deriving DecidableEq

/-- The `canned` fallback body of `ask_deepseek_suggestions` in
`studybuddy_streamlit.py`. -/
def streamlit_canned : String :=
  "City suggestions (fallback):\n1. Toronto — strong CS and business programs.\n2. Melbourne — high-quality universities.\n3. Berlin — affordable and tech-focused.\n\nNext step: Schedule a mock interview using the Calendly link."

/-- `ask_deepseek_suggestions(payload, pre_answers, score)` from
`studybuddy_streamlit.py`.  `apiKey` models the `GEMINI_API_KEY`
environment value (`none` = unset; the empty string is equally falsy in
`if not GEMINI_API_KEY`).  The Gemini call itself is external, so its
outcome is a parameter; on success the code returns `response.text.strip()`,
on any exception the prefixed canned fallback.  The profile, answers and
score only feed the prompt of the external call. -/
def ask_deepseek_suggestions (apiKey : Option String) (payload : Profile) (pre : Answers)
    (score : ℤ) (outcome : GeminiOutcome) : String :=
  if apiKey.getD "" = "" then "GEMINI_API_KEY not set. Add it to your .env file."
  else
    match outcome with
    | .ok t => pyStrip t
    | .error => "(Gemini error — using fallback)\n\n" ++ streamlit_canned

/-- The triple-quoted fallback literal of `ask_gemini_suggestions` in
`studybuddy_nicegui.py` (it begins with the marker line and ends with a
newline, exactly as in the source). -/
def nicegui_canned : String :=
  "(Gemini error — fallback)\n1. Toronto — Good for tech and business.\n2. Melbourne — Strong universities.\n3. Berlin — Affordable and practical.\n\nNext step: Schedule a counseling call.\n"

/-- `ask_gemini_suggestions(payload, pre_answers, score)` from
`studybuddy_nicegui.py`: no key check; on success `response.text` is
returned unmodified, on any exception (bare `except:`) the canned
fallback. -/
def ask_gemini_suggestions (payload : Profile) (pre : Answers) (score : ℤ)
    (outcome : GeminiOutcome) : String :=
  match outcome with
  | .ok t => t
  | .error => nicegui_canned

/-! ### Observable shape of a suggestion string -/

/-- Split a character list at newline characters. -/
def splitLinesAux : List Char → List Char → List (List Char)
  | [], acc => [acc.reverse]
  | c :: rest, acc =>
    if c = '\n' then acc.reverse :: splitLinesAux rest [] else splitLinesAux rest (c :: acc)

/-- The lines of a string. -/
def textLines (s : String) : List (List Char) := splitLinesAux s.data []

/-- A numbered recommendation line: it starts with a digit followed by
a dot, as in `1. Toronto — ...`. -/
def numberedLine : List Char → Bool
  | c1 :: c2 :: _ => c1.isDigit && c2 = '.'
  | _ => false

/-- How many numbered city-recommendation lines a suggestion string has. -/
def city_lines (s : String) : ℕ := ((textLines s).filter numberedLine).length

/-- Number of occurrences of a pattern in a character list. -/
def countOcc (pat : List Char) : List Char → ℕ
  | [] => 0
  | c :: rest => (if pat.isPrefixOf (c :: rest) then 1 else 0) + countOcc pat rest

/-- How many `Next step` sentences a suggestion string has. -/
def next_step_count (s : String) : ℕ := countOcc "Next step".data s.data

/-- The fallback shape the spec demands: exactly three city
recommendations and exactly one next-step sentence. -/
def fallback_shape (s : String) : Bool := city_lines s == 3 && next_step_count s == 1

/-- A result visibly marked as degraded: it starts with the
`(Gemini error` marker both fallbacks carry. -/
def marked_degraded (s : String) : Bool := "(Gemini error".data.isPrefixOf s.data

/-! ## Record store and intake workflow -/

/-- One row of the `students` table (both variants create the same
schema). -/
structure Submission where
  id : String
  full_name : String
  email : String
  phone : String
  country_of_origin : String
  preferred_cities : String
  program_interest : String
  current_qualification : String
  target_intake : String
  budget_estimate : String
  preferred_contact_method : String
  consent : Bool
  pre_interview_answers : String
  pre_interview_score : ℤ
  counselor : Option String
  status : String
  created_at : String
  suggestion_text : String
deriving DecidableEq

/-- Models the `str(pre_answers)` serialization stored in the
`pre_interview_answers` text column; the claims only need that it is some
deterministic encoding of the four answer fields, stored verbatim. -/
def strAnswers (pre : Answers) : String :=
  "motivation=" ++ pre.motivation.getD "" ++ "; ielts_score=" ++ pre.ielts_score.getD "" ++
    "; work_experience_years=" ++ pre.work_experience_years.getD "" ++
    "; budget_estimate=" ++ pre.budget_estimate.getD ""

/-- The intake submit handler (`if submitted:` block of the Streamlit app;
the NiceGUI `submit` performs the same validation and insert).  The result
is the new students table, the number of suggestion-gateway calls made,
and whether the submission was accepted.  The guard mirrors
`if not (full_name and email and consent)` — empty strings and `False`
are falsy — which rejects with an error message and returns without any
insert or Gemini call. -/
def intake_submit (db : List Submission) (p : Profile)
    (motivation ielts_score work_experience_years : String)
    (sid now : String) (apiKey : Option String) (gemini : GeminiOutcome) :
    List Submission × ℕ × Bool :=
  if p.full_name = "" ∨ p.email = "" ∨ p.consent = false then (db, 0, false)
  else
    let pre : Answers :=
      ⟨some motivation, some ielts_score, some work_experience_years, some p.budget_estimate⟩
    let score := calculate_pre_interview_score pre
    let suggestion := ask_deepseek_suggestions apiKey p pre score gemini
    (db ++ [{ id := sid, full_name := p.full_name, email := p.email, phone := p.phone,
              country_of_origin := p.country_of_origin, preferred_cities := p.preferred_cities,
              program_interest := p.program_interest,
              current_qualification := p.current_qualification,
              target_intake := p.target_intake, budget_estimate := p.budget_estimate,
              preferred_contact_method := p.preferred_contact_method, consent := p.consent,
              pre_interview_answers := strAnswers pre, pre_interview_score := score,
              counselor := none, status := "New", created_at := now,
              suggestion_text := suggestion }],
     1, true)

/-- The admin "Save changes" handler:
`UPDATE students SET counselor = ?, status = ? WHERE id = ?` with the
bound values `(new_counselor or None, new_status, sid)`, followed
unconditionally by the success message (`st.success("Updated.")` /
`ui.notify("Updated!")`).  The result is the new table and the message
shown to the admin. -/
def save_changes (db : List Submission) (sid : String)
    (new_counselor new_status : String) : List Submission × String :=
  (db.map fun r =>
      if r.id = sid then
        { r with counselor := if new_counselor = "" then none else some new_counselor,
                 status := new_status }
      else r,
   "Updated.")

/-! ## Chat session -/

/-- One transcript entry, `{"role": ..., "content": ...}`. -/
structure ChatMsg where
  role : String
  content : String
deriving DecidableEq

/-- `send_msg` from the NiceGUI chat page (the Streamlit chat block is the
same without the strip): strip the input, return unchanged on empty text,
otherwise append the user turn and then the assistant turn.  `reply`
stands for the external `ask_gemini_chat` result on the transcript that
already includes the new user turn. -/
def send_msg (chat : List ChatMsg) (userText reply : String) : List ChatMsg :=
  if pyStrip userText = "" then chat
  else chat ++ [⟨"user", pyStrip userText⟩, ⟨"assistant", reply⟩]

/-- `clear_chat` / the "New conversation" button: the transcript is set to
the empty list. -/
def clear_chat : List ChatMsg := []

/-- The seed transcript: `app.storage.user.setdefault("chat", [])` (and the
Streamlit `st.session_state.chat_history = []` initialization) seed an
empty transcript. -/
def chat_seed : List ChatMsg := []

/-! ## Sample values used by witnesses and counterexamples -/

/-- A concrete valid applicant profile. -/
def sampleProfile : Profile :=
  { full_name := "Asha", email := "a@x.com", phone := "", country_of_origin := "India",
    preferred_cities := "", program_interest := "Masters", current_qualification := "B.Tech",
    target_intake := "2026-09", budget_estimate := "25000",
    preferred_contact_method := "Email", consent := true }

/-- Concrete pre-interview answers. -/
def sampleAnswers : Answers :=
  ⟨some "I want to study abroad.", some "7.5", some "4", some "25000"⟩

/-- A concrete stored submission row. -/
def sampleRow : Submission :=
  { id := "row-1", full_name := "Asha", email := "a@x.com", phone := "",
    country_of_origin := "India", preferred_cities := "", program_interest := "Masters",
    current_qualification := "B.Tech", target_intake := "2026-09",
    budget_estimate := "25000", preferred_contact_method := "Email", consent := true,
    pre_interview_answers := "", pre_interview_score := 90, counselor := none,
    status := "New", created_at := "2025-01-01T00:00:00", suggestion_text := "genuine text" }

/-- A row as it looks after the admin assigns Counselor A and closes it. -/
def sampleRowUpdated : Submission :=
  { sampleRow with counselor := some "Counselor A", status := "Closed" }

/-! ## Claims -/

/-- Claim C1: for every answers mapping, `calculate_pre_interview_score`
returns exactly the sum of the four independent band contributions stated
by the spec (IELTS, work experience, trimmed motivation length, budget),
capped as `min(sum, 100)`. -/
theorem C1_score_is_capped_sum_of_spec_bands (a : Answers) :
    calculate_pre_interview_score a = score_spec a := by
  unfold calculate_pre_interview_score pre_interview_raw score_spec
  rw [ielts_points_eq_spec, work_points_eq_spec, motivation_points_eq_spec,
    budget_points_eq_spec]

/-- Claim C2: the scoring function is total (it is a Lean function on all
answer mappings, mirroring the source's catch-all numeric parsing), every
missing, empty or unparsable numeric field contributes 0 — replacing such
a field by an absent one does not change the score — and the result lies
in [0, 100]. -/
theorem C2_score_total_in_range (a : Answers) (s : String) (hs : pyFloat s = none) :
    0 ≤ calculate_pre_interview_score a ∧ calculate_pre_interview_score a ≤ 100 ∧
    numField none = 0 ∧ numField (some "") = 0 ∧ numField (some s) = 0 ∧
    calculate_pre_interview_score { a with ielts_score := some s } =
      calculate_pre_interview_score { a with ielts_score := none } ∧
    calculate_pre_interview_score { a with work_experience_years := some s } =
      calculate_pre_interview_score { a with work_experience_years := none } ∧
    calculate_pre_interview_score { a with budget_estimate := some s } =
      calculate_pre_interview_score { a with budget_estimate := none } := by
  have hnum : numField (some s) = numField none := by simp [numField, hs]
  refine ⟨le_min (raw_nonneg a) (by norm_num), min_le_right _ _, rfl, by simp [numField],
    by simp [numField, hs], ?_, ?_, ?_⟩ <;>
    simp [calculate_pre_interview_score, pre_interview_raw, hnum]

/-- Witness for C2 at concrete inputs: the sample answers and the
unparsable string "abc". -/
theorem C2_score_total_in_range_witness :
    0 ≤ calculate_pre_interview_score sampleAnswers ∧
    calculate_pre_interview_score { sampleAnswers with ielts_score := some "abc" } =
      calculate_pre_interview_score { sampleAnswers with ielts_score := none } := by
  have h := C2_score_total_in_range sampleAnswers "abc" (by decide)
  exact ⟨h.1, h.2.2.2.2.2.1⟩

/-- Claim C3 is falsified by the Streamlit variant at the failure input
"missing credential": `ask_deepseek_suggestions` returns the bare
`GEMINI_API_KEY not set` message, which contains zero numbered city
recommendations and no next-step sentence, not the three-city fallback
the claim demands for every failure input. -/
theorem C3_missing_credential_counterexample :
    ask_deepseek_suggestions none sampleProfile sampleAnswers 0 GeminiOutcome.error =
      "GEMINI_API_KEY not set. Add it to your .env file." ∧
    city_lines (ask_deepseek_suggestions none sampleProfile sampleAnswers 0 GeminiOutcome.error)
      = 0 ∧
    next_step_count
      (ask_deepseek_suggestions none sampleProfile sampleAnswers 0 GeminiOutcome.error) = 0 ∧
    fallback_shape
      (ask_deepseek_suggestions none sampleProfile sampleAnswers 0 GeminiOutcome.error) = false :=
  ⟨rfl, by decide, by decide, by decide⟩

/-- Claim C3 as amended: on any exception from the model call both
variants return their fixed fallback — exactly three numbered city
recommendations, exactly one next-step sentence, prefixed by the
`(Gemini error` marker — but on a missing credential the Streamlit
variant instead returns the distinct `GEMINI_API_KEY not set` message. -/
theorem C3_fallback_on_exception (k : String) (hk : k ≠ "") (p : Profile) (a : Answers)
    (s : ℤ) :
    fallback_shape (ask_deepseek_suggestions (some k) p a s GeminiOutcome.error) = true ∧
    marked_degraded (ask_deepseek_suggestions (some k) p a s GeminiOutcome.error) = true ∧
    fallback_shape (ask_gemini_suggestions p a s GeminiOutcome.error) = true ∧
    marked_degraded (ask_gemini_suggestions p a s GeminiOutcome.error) = true ∧
    ask_gemini_suggestions p a s GeminiOutcome.error = nicegui_canned ∧
    ask_deepseek_suggestions none p a s GeminiOutcome.error =
      "GEMINI_API_KEY not set. Add it to your .env file." := by
  have hd : ask_deepseek_suggestions (some k) p a s GeminiOutcome.error =
      "(Gemini error — using fallback)\n\n" ++ streamlit_canned := by
    simp [ask_deepseek_suggestions, hk]
  have hg : ask_gemini_suggestions p a s GeminiOutcome.error = nicegui_canned := rfl
  refine ⟨?_, ?_, ?_, ?_, hg, rfl⟩
  · rw [hd]; decide
  · rw [hd]; decide
  · rw [hg]; decide
  · rw [hg]; decide

/-- Witness for the amended C3 with a concrete non-empty key. -/
theorem C3_fallback_on_exception_witness :
    fallback_shape
      (ask_deepseek_suggestions (some "api-key") sampleProfile sampleAnswers 65
        GeminiOutcome.error) = true ∧
    fallback_shape (ask_gemini_suggestions sampleProfile sampleAnswers 65 GeminiOutcome.error)
      = true := by
  have h := C3_fallback_on_exception "api-key" (by decide) sampleProfile sampleAnswers 65
  exact ⟨h.1, h.2.2.1⟩

/-- Claim C4: an intake submission with empty full name, empty email, or
consent unchecked is rejected and has no side effects: the students table
is returned unchanged (same rows, same row count), no suggestion-gateway
call is made, and the submission is not accepted. -/
theorem C4_invalid_intake_rejected_no_side_effects (db : List Submission) (p : Profile)
    (motivation ielts work sid now : String) (apiKey : Option String) (g : GeminiOutcome)
    (h : p.full_name = "" ∨ p.email = "" ∨ p.consent = false) :
    (intake_submit db p motivation ielts work sid now apiKey g).1 = db ∧
    ((intake_submit db p motivation ielts work sid now apiKey g).1).length = db.length ∧
    (intake_submit db p motivation ielts work sid now apiKey g).2.1 = 0 ∧
    (intake_submit db p motivation ielts work sid now apiKey g).2.2 = false := by
  unfold intake_submit
  rw [if_pos h]
  exact ⟨rfl, rfl, rfl, rfl⟩

/-- Witness for C4: a concrete submission with an empty email against an
empty table. -/
theorem C4_invalid_intake_witness :
    (intake_submit [] { sampleProfile with email := "" } "m" "7" "2" "id-1" "t0" none
      GeminiOutcome.error).1 = ([] : List Submission) ∧
    (intake_submit [] { sampleProfile with email := "" } "m" "7" "2" "id-1" "t0" none
      GeminiOutcome.error).2.1 = 0 := by
  have h := C4_invalid_intake_rejected_no_side_effects [] { sampleProfile with email := "" }
    "m" "7" "2" "id-1" "t0" none GeminiOutcome.error (Or.inr (Or.inl rfl))
  exact ⟨h.1, h.2.2.1⟩

/-- Claim C5: `classify_score` returns High for score ≥ 75, Medium for
50 ≤ score < 75 and Low for score < 50, with the stated boundary
values. -/
theorem C5_classify_bands (s : ℤ) :
    (75 ≤ s → classify_score s = "High") ∧
    (50 ≤ s ∧ s < 75 → classify_score s = "Medium") ∧
    (s < 50 → classify_score s = "Low") ∧
    classify_score 74 = "Medium" ∧ classify_score 75 = "High" ∧
    classify_score 49 = "Low" ∧ classify_score 50 = "Medium" ∧ classify_score 0 = "Low" := by
  refine ⟨?_, ?_, ?_, by decide, by decide, by decide, by decide, by decide⟩
  · intro h
    simp [classify_score, ge_iff_le, h]
  · rintro ⟨h1, h2⟩
    have h75 : ¬ (75:ℤ) ≤ s := by omega
    simp [classify_score, ge_iff_le, h75, h1]
  · intro h
    have h75 : ¬ (75:ℤ) ≤ s := by omega
    have h50 : ¬ (50:ℤ) ≤ s := by omega
    simp [classify_score, ge_iff_le, h75, h50]

/-- Witness for C5 in the interior of each band. -/
theorem C5_classify_bands_witness :
    classify_score 80 = "High" ∧ classify_score 60 = "Medium" ∧ classify_score 10 = "Low" :=
  ⟨(C5_classify_bands 80).1 (by norm_num),
   (C5_classify_bands 60).2.1 ⟨by norm_num, by norm_num⟩,
   (C5_classify_bands 10).2.2.1 (by norm_num)⟩

/-- Claim C6: the score never exceeds 90 (30+25+25+10), so the
`min(·, 100)` cap never binds: the capped score equals the raw sum. -/
theorem C6_score_at_most_ninety (a : Answers) :
    calculate_pre_interview_score a ≤ 90 ∧
    calculate_pre_interview_score a = pre_interview_raw a := by
  have h := raw_le_ninety a
  unfold calculate_pre_interview_score
  exact ⟨le_trans (min_le_left _ _) h, min_eq_left (le_trans h (by norm_num))⟩

/-- Claim C7 is falsified at a concrete absent id: the save handler runs
the SQL UPDATE whose WHERE clause matches nothing, leaves the table
unchanged, and still reports the success message — there is no NotFound
error and no failure report. -/
theorem C7_unknown_id_counterexample :
    (save_changes [sampleRow] "no-such-id" "Counselor A" "Closed").1 = [sampleRow] ∧
    (save_changes [sampleRow] "no-such-id" "Counselor A" "Closed").2 = "Updated." :=
  ⟨by decide, rfl⟩

/-- Claim C7 as amended: updating an id absent from the table changes no
row, yet the handler unconditionally reports success; no error is
surfaced. -/
theorem C7_unknown_id_silently_reports_success (db : List Submission) (sid c st : String)
    (h : ∀ r ∈ db, r.id ≠ sid) :
    (save_changes db sid c st).1 = db ∧ (save_changes db sid c st).2 = "Updated." := by
  have key : ∀ l : List Submission, (∀ r ∈ l, r.id ≠ sid) →
      l.map (fun r =>
        if r.id = sid then
          { r with counselor := if c = "" then none else some c, status := st }
        else r) = l := by
    intro l
    induction l with
    | nil => intro _; rfl
    | cons x xs ih =>
      intro hl
      simp only [List.map_cons]
      rw [if_neg (hl x (by simp)), ih (fun r hr => hl r (by simp [hr]))]
  exact ⟨key db h, rfl⟩

/-- Witness for the amended C7 at a concrete absent id. -/
theorem C7_unknown_id_witness :
    (save_changes [sampleRow] "ghost" "Counselor B" "Closed").1 = [sampleRow] ∧
    (save_changes [sampleRow] "ghost" "Counselor B" "Closed").2 = "Updated." :=
  C7_unknown_id_silently_reports_success [sampleRow] "ghost" "Counselor B" "Closed" (by decide)

/-- Claim C8: the admin assignment update mutates only the `counselor`
and `status` fields of the addressed row — every other column of that row
is unchanged — and any row whose id differs is untouched; the table keeps
its length. -/
theorem C8_update_touches_only_assignment_fields (db : List Submission) (sid c st : String) :
    ((save_changes db sid c st).1).length = db.length ∧
    ∀ (i : ℕ) (r r' : Submission), db[i]? = some r →
      ((save_changes db sid c st).1)[i]? = some r' →
      r'.id = r.id ∧ r'.full_name = r.full_name ∧ r'.email = r.email ∧ r'.phone = r.phone ∧
      r'.country_of_origin = r.country_of_origin ∧
      r'.preferred_cities = r.preferred_cities ∧
      r'.program_interest = r.program_interest ∧
      r'.current_qualification = r.current_qualification ∧
      r'.target_intake = r.target_intake ∧ r'.budget_estimate = r.budget_estimate ∧
      r'.preferred_contact_method = r.preferred_contact_method ∧ r'.consent = r.consent ∧
      r'.pre_interview_answers = r.pre_interview_answers ∧
      r'.pre_interview_score = r.pre_interview_score ∧
      r'.created_at = r.created_at ∧ r'.suggestion_text = r.suggestion_text ∧
      (r.id ≠ sid → r' = r) := by
  constructor
  · show (db.map _).length = db.length
    simp
  · intro i r r' hr hr'
    have hmap : ((save_changes db sid c st).1)[i]? = (db[i]?).map (fun r =>
        if r.id = sid then
          { r with counselor := if c = "" then none else some c, status := st }
        else r) := by
      show (db.map _)[i]? = _
      simp [List.getElem?_map]
    rw [hmap, hr] at hr'
    simp only [Option.map_some', Option.some.injEq] at hr'
    by_cases hid : r.id = sid
    · rw [if_pos hid] at hr'
      subst hr'
      exact ⟨rfl, rfl, rfl, rfl, rfl, rfl, rfl, rfl, rfl, rfl, rfl, rfl, rfl, rfl, rfl, rfl,
        fun hne => absurd hid hne⟩
    · rw [if_neg hid] at hr'
      subst hr'
      exact ⟨rfl, rfl, rfl, rfl, rfl, rfl, rfl, rfl, rfl, rfl, rfl, rfl, rfl, rfl, rfl, rfl,
        fun _ => rfl⟩

/-- Witness for C8: the sample row addressed by its own id keeps its
immutable columns. -/
theorem C8_update_frame_witness :
    sampleRowUpdated.created_at = sampleRow.created_at ∧
    sampleRowUpdated.pre_interview_score = sampleRow.pre_interview_score ∧
    sampleRowUpdated.suggestion_text = sampleRow.suggestion_text := by
  have h := (C8_update_touches_only_assignment_fields [sampleRow] "row-1" "Counselor A"
    "Closed").2 0 sampleRow sampleRowUpdated (by decide) (by decide)
  obtain ⟨hid, hname, hemail, hphone, hcountry, hcities, hprog, hqual, hintake, hbudget,
    hcontact, hconsent, hanswers, hscore, hcreated, hsugg, hother⟩ := h
  exact ⟨hcreated, hscore, hsugg⟩

/-- Claim C9: sending a non-empty chat message appends exactly two
transcript entries — the stripped user turn, then the assistant turn with
the gateway's reply — in that order with the earlier transcript
untouched, and the reset action returns the transcript to its empty seed
state. -/
theorem C9_send_appends_two_and_reset_empties (chat : List ChatMsg) (userText reply : String)
    (h : pyStrip userText ≠ "") :
    send_msg chat userText reply =
      chat ++ [⟨"user", pyStrip userText⟩, ⟨"assistant", reply⟩] ∧
    (send_msg chat userText reply).length = chat.length + 2 ∧
    (send_msg chat userText reply).take chat.length = chat ∧
    clear_chat = chat_seed := by
  have he : send_msg chat userText reply =
      chat ++ [⟨"user", pyStrip userText⟩, ⟨"assistant", reply⟩] := by
    unfold send_msg
    rw [if_neg h]
  refine ⟨he, ?_, ?_, rfl⟩
  · rw [he]; simp
  · rw [he]
    exact List.take_left chat [⟨"user", pyStrip userText⟩, ⟨"assistant", reply⟩]

/-- Witness for C9 with the message "hello". -/
theorem C9_send_witness :
    send_msg [] "hello" "Hi there" =
      [] ++ [⟨"user", pyStrip "hello"⟩, ⟨"assistant", "Hi there"⟩] :=
  (C9_send_appends_two_and_reset_empties [] "hello" "Hi there" (by decide)).1

/-- Claim C10: a numeric field that parses to a negative value falls
outside every scoring band and contributes 0 points, the all-negative
example scores 0, and the score is never negative. -/
theorem C10_negative_numeric_fields_contribute_zero (a : Answers) (v : ℚ) (hv : v < 0) :
    ielts_points v = 0 ∧ work_points v = 0 ∧ budget_points v = 0 ∧
    0 ≤ calculate_pre_interview_score a ∧
    calculate_pre_interview_score ⟨some "", some "-5", some "-2", some "-100000"⟩ = 0 := by
  have h7 : ¬ (7:ℚ) ≤ v := by linarith
  have h6 : ¬ (6:ℚ) ≤ v := by linarith
  have h0 : ¬ (0:ℚ) < v := by linarith
  have h3 : ¬ (3:ℚ) ≤ v := by linarith
  have h1 : ¬ (1:ℚ) ≤ v := by linarith
  have hb : ¬ (20000:ℚ) ≤ v := by linarith
  refine ⟨?_, ?_, ?_, le_min (raw_nonneg a) (by norm_num), by decide⟩
  · simp [ielts_points, h7, h6, h0]
  · simp [work_points, h3, h1]
  · simp [budget_points, hb]

/-- Witness for C10 at the concrete negative value −1. -/
theorem C10_negative_fields_witness :
    ielts_points (mkRat (-1) 1) = 0 ∧
    calculate_pre_interview_score ⟨some "", some "-5", some "-2", some "-100000"⟩ = 0 := by
  have h := C10_negative_numeric_fields_contribute_zero sampleAnswers (mkRat (-1) 1) (by decide)
  exact ⟨h.1, h.2.2.2.2⟩

end StudyBuddy
